import Mathlib

/-!
Shallow embedding of `src/data_visualization.py`, a Streamlit data-visualization
app.  A pandas DataFrame is modelled as a list of named columns; cell values are
numbers, text, or missing (NaN/None).  Plotly figures are modelled as
descriptions carrying the arguments of the `px.*` constructor that built them
together with the layout state mutated by `update_layout`.  Streamlit message
emission (`st.write`) is modelled by returning the list of messages emitted;
uncaught Python exceptions (KeyError from `df[col]` on a missing column, the
UnboundLocalError of `generate_chart`'s fall-through) are modelled with
`Except PyError`.
-/

/-- A cell of a pandas DataFrame: a number, a text entry, or a missing value
(NaN / None — what `isnull` detects). -/
inductive Value where
  | num (q : ℚ)
  | str (s : String)
  | null
deriving DecidableEq, Repr

/-- A DataFrame: ordered, named columns. -/
abbrev Dataset := List (String × List Value)

/-- Column lookup `df[c]`: the first column named `c`, if any. -/
def lookupCol (df : Dataset) (c : String) : Option (List Value) :=
  (df.find? (fun p => p.1 = c)).map (fun p => p.2)

/-- Missing-value test `df[c].isnull().any()`: the column contains a missing value anywhere. -/
def hasNull (col : List Value) : Bool :=
  col.any (fun v => v = Value.null)

/-- Python truthiness of an `Optional[str]` column selection: `None` and the
empty string are falsy. -/
def truthy : Option String → Bool
  | none => false
  | some s => s ≠ ""

/-- Whether a column read by `pd.read_csv` gets a numeric dtype — what
`select_dtypes(include=[np.number])` keeps: a nonempty column with no text
entry (missing values still give float dtype; an empty column defaults to
object dtype). -/
def numericColumn (col : List Value) : Bool :=
  !col.isEmpty && col.all (fun v => match v with | Value.str _ => false | _ => true)

/-- Numeric selection `df.select_dtypes(include=[np.number])`: the numeric sub-DataFrame. -/
def numericCols (df : Dataset) : Dataset :=
  df.filter (fun p => numericColumn p.2)

/-- The number of numeric columns of `df`. -/
def countNumeric (df : Dataset) : ℕ :=
  (numericCols df).length

/-- The six `px.colors.sequential` palettes the app offers, as atoms: their
color lists live in the external plotly library and only their identity
matters here. -/
inductive Palette where
  | Plotly3
  | Plasma
  | Viridis
  | Cividis
  | Inferno
  | Magma
deriving DecidableEq, Repr

/-- Model of `get_color_scale`: dictionary lookup by name with `.get` defaulting to
`px.colors.sequential.Plotly3`. -/
def get_color_scale (color_scheme : String) : Palette :=
  if color_scheme = "Plotly3" then Palette.Plotly3
  else if color_scheme = "Plasma" then Palette.Plasma
  else if color_scheme = "Viridis" then Palette.Viridis
  else if color_scheme = "Cividis" then Palette.Cividis
  else if color_scheme = "Inferno" then Palette.Inferno
  else if color_scheme = "Magma" then Palette.Magma
  else Palette.Plotly3

/-- The palette names offered by the sidebar selectbox. -/
def paletteNames : List String :=
  ["Plotly3", "Plasma", "Viridis", "Cividis", "Inferno", "Magma"]

/-- Figure layout state set by `fig.update_layout`. -/
structure Layout where
  title : Option String
  colorway : Option Palette
deriving DecidableEq, Repr

/-- The data part of a plotly figure: which `px` constructor built it and
with which arguments (`update_traces` on the line chart is folded into the
stored line width). -/
inductive FigData where
  | line (df : Dataset) (x y : Option String) (line_shape : String) (width : ℕ)
  | bar (df : Dataset) (x y : Option String) (text : Option String)
  | pie (df : Dataset) (names values : Option String) (hole : ℚ)
  | imshow (src : Dataset) (text_auto : Bool)
deriving DecidableEq, Repr

/-- A plotly figure: data plus mutable layout. -/
structure Fig where
  data : FigData
  layout : Layout
deriving DecidableEq, Repr

/-- Uncaught Python exceptions relevant to this code. -/
inductive PyError where
  | keyError
  | unboundLocal
deriving DecidableEq, Repr

/-- Model of `generate_line_chart`: `px.line(df, x, y, line_shape="linear")` then
`update_traces(line=dict(width=line_width))`; the slider value is the `width`
argument.  Always returns a figure, emits nothing. -/
def generate_line_chart (df : Dataset) (x_col y_col : Option String) (line_width : ℕ) :
    Option Fig × List String :=
  (some ⟨FigData.line df x_col y_col "linear" line_width, ⟨none, none⟩⟩, [])

/-- Model of `generate_bar_chart`: `px.bar(df, x, y, text=y_col)`.  Always returns a
figure, emits nothing. -/
def generate_bar_chart (df : Dataset) (x_col y_col : Option String) :
    Option Fig × List String :=
  (some ⟨FigData.bar df x_col y_col y_col, ⟨none, none⟩⟩, [])

/-- Model of `generate_pie_chart`: truthiness test on both selections, then the
short-circuiting `df[x].isnull().any() or df[y].isnull().any()` check (each
`df[...]` access raises KeyError on a missing column), then `px.pie`. -/
def generate_pie_chart (df : Dataset) (x_col y_col : Option String) (hole : ℚ) :
    Except PyError (Option Fig × List String) :=
  if truthy x_col && truthy y_col then
    match lookupCol df (x_col.getD "") with
    | none => Except.error PyError.keyError
    | some cx =>
      if hasNull cx then
        Except.ok (none, ["The selected columns for the pie chart contain NaN values."])
      else
        match lookupCol df (y_col.getD "") with
        | none => Except.error PyError.keyError
        | some cy =>
          if hasNull cy then
            Except.ok (none, ["The selected columns for the pie chart contain NaN values."])
          else
            Except.ok (some ⟨FigData.pie df x_col y_col hole, ⟨none, none⟩⟩, [])
  else
    Except.ok (none, ["Please select appropriate columns for the pie chart."])

/-- Model of `generate_heatmap`: keep the numeric columns; if that frame is empty,
message and `None`; otherwise `px.imshow(numeric_df.corr(), text_auto=True)`.
The figure stores the numeric frame; its correlation-matrix entries are read
off by `figMatrixEntry` below. -/
def generate_heatmap (df : Dataset) : Option Fig × List String :=
  let numeric_df := numericCols df
  if numeric_df.isEmpty then
    (none, ["No numeric columns available for heatmap."])
  else
    (some ⟨FigData.imshow numeric_df true, ⟨none, none⟩⟩, [])

/-- Model of `generate_chart`: the four-way `if/elif` dispatch on the chart-type
string.  The missing `else` leaves `fig` unassigned, so returning it raises
UnboundLocalError. -/
def generate_chart (df : Dataset) (chart_type : String) (x_col y_col : Option String)
    (line_width : ℕ) (hole : ℚ) : Except PyError (Option Fig × List String) :=
  if chart_type = "Line Chart" then
    Except.ok (generate_line_chart df x_col y_col line_width)
  else if chart_type = "Bar Chart" then
    Except.ok (generate_bar_chart df x_col y_col)
  else if chart_type = "Pie Chart" then
    generate_pie_chart df x_col y_col hole
  else if chart_type = "Heatmap" then
    Except.ok (generate_heatmap df)
  else
    Except.error PyError.unboundLocal

/-- The chart kinds the sidebar selectbox offers. -/
def chartKinds : List String :=
  ["Line Chart", "Bar Chart", "Pie Chart", "Heatmap"]

/-- Model of `apply_chart_customizations`: no-op on `None`; otherwise
`update_layout(title=chart_title, colorway=get_color_scale(color_scheme))`. -/
def apply_chart_customizations (fig : Option Fig) (chart_title : String)
    (color_scheme : String) : Option Fig :=
  match fig with
  | none => none
  | some f =>
      some { f with layout := ⟨some chart_title, some (get_color_scale color_scheme)⟩ }

/-!
Pearson correlation as pandas computes it for `DataFrame.corr()`: for each
pair of columns the rows where both entries are present are kept, and
r = Σ(x-x̄)(y-ȳ) / √(Σ(x-x̄)²·Σ(y-ȳ)²) over those rows; when either
sum of squared deviations is zero (constant column, a single row, or no
complete pair) the entry is NaN, modelled as `none`.  Sums and means are
exact rationals; the final quotient lives in ℝ because of the square roots.
-/

/-- Numeric view of a cell: `num q` is the number, `null` is missing. -/
def numOpt : Value → Option ℚ
  | Value.num q => some q
  | Value.str _ => none
  | Value.null => none

/-- The pairwise-complete observations of two columns: rows where both
entries are present numbers. -/
def completePairs (xs ys : List Value) : List (ℚ × ℚ) :=
  (xs.zip ys).filterMap (fun p =>
    match numOpt p.1, numOpt p.2 with
    | some a, some b => some (a, b)
    | _, _ => none)

/-- Mean of a list of rationals (0 on the empty list, which is only reached
in branches pandas reports as NaN). -/
def mean (l : List ℚ) : ℚ :=
  l.sum / l.length

/-- Sum of squared deviations from the mean. -/
def devSq (l : List ℚ) : ℚ :=
  (l.map (fun q => (q - mean l) ^ 2)).sum

/-- Sum of products of deviations of the two coordinates of a pair list. -/
def crossDev (ps : List (ℚ × ℚ)) : ℚ :=
  (ps.map (fun p =>
    (p.1 - mean (ps.map Prod.fst)) * (p.2 - mean (ps.map Prod.snd)))).sum

/-- Pearson correlation of two columns, `none` standing for NaN. -/
noncomputable def pearson (xs ys : List Value) : Option ℝ :=
  if devSq ((completePairs xs ys).map Prod.fst) = 0 ∨
      devSq ((completePairs xs ys).map Prod.snd) = 0 then
    none
  else
    some ((crossDev (completePairs xs ys) : ℝ) /
      (Real.sqrt (devSq ((completePairs xs ys).map Prod.fst)) *
        Real.sqrt (devSq ((completePairs xs ys).map Prod.snd))))

/-- Sum of squared deviations of the present values of one column — zero
exactly when pandas puts NaN on that column's diagonal. -/
def colDevSq (xs : List Value) : ℚ :=
  devSq (xs.filterMap numOpt)

/-- Side length of the matrix a heatmap figure displays (0 for other
figures). -/
def figMatrixDim : Fig → ℕ
  | ⟨FigData.imshow src _, _⟩ => src.length
  | _ => 0

/-- Entry (i, j) of the correlation matrix a heatmap figure displays. -/
noncomputable def figMatrixEntry : Fig → ℕ → ℕ → Option ℝ
  | ⟨FigData.imshow src _, _⟩, i, j =>
    match src[i]?, src[j]? with
    | some ci, some cj => pearson ci.2 cj.2
    | _, _ => none
  | _, _, _ => none

/-- Matrix entry of an optional figure (`none` when absent). -/
noncomputable def optMatrixEntry : Option Fig → ℕ → ℕ → Option ℝ
  | some f, i, j => figMatrixEntry f i j
  | none, _, _ => none

/-! Helper lemmas about the correlation model. -/

theorem completePairs_swap (xs ys : List Value) :
    completePairs ys xs = (completePairs xs ys).map Prod.swap := by
  induction xs generalizing ys with
  | nil => cases ys <;> simp [completePairs]
  | cons a xs ih =>
    cases ys with
    | nil => simp [completePairs]
    | cons b ys =>
      have ih2 := ih ys
      simp only [completePairs, List.zip_cons_cons, List.filterMap_cons] at ih2 ⊢
      cases ha : numOpt a <;> cases hb : numOpt b <;> simp [ha, hb, ih2]

theorem map_fst_map_swap (ps : List (ℚ × ℚ)) :
    (ps.map Prod.swap).map Prod.fst = ps.map Prod.snd := by
  simp [List.map_map, Function.comp_def]

theorem map_snd_map_swap (ps : List (ℚ × ℚ)) :
    (ps.map Prod.swap).map Prod.snd = ps.map Prod.fst := by
  simp [List.map_map, Function.comp_def]

theorem crossDev_swap (ps : List (ℚ × ℚ)) :
    crossDev (ps.map Prod.swap) = crossDev ps := by
  unfold crossDev
  rw [map_fst_map_swap, map_snd_map_swap, List.map_map]
  apply congrArg List.sum
  apply List.map_congr_left
  intro p _
  simp only [Function.comp_apply, Prod.fst_swap, Prod.snd_swap]
  ring

theorem pearson_comm (xs ys : List Value) : pearson xs ys = pearson ys xs := by
  unfold pearson
  rw [completePairs_swap xs ys, map_fst_map_swap, map_snd_map_swap, crossDev_swap]
  by_cases hA : devSq ((completePairs xs ys).map Prod.fst) = 0 <;>
    by_cases hB : devSq ((completePairs xs ys).map Prod.snd) = 0 <;>
      simp [hA, hB, mul_comm]

theorem completePairs_self (xs : List Value) :
    completePairs xs xs = (xs.filterMap numOpt).map (fun q => (q, q)) := by
  induction xs with
  | nil => simp [completePairs]
  | cons a xs ih =>
    simp only [completePairs, List.zip_cons_cons, List.filterMap_cons] at ih ⊢
    cases ha : numOpt a <;> simp [ha, ih]

theorem crossDev_dup (l : List ℚ) :
    crossDev (l.map (fun q => (q, q))) = devSq l := by
  unfold crossDev devSq
  simp only [List.map_map]
  have h1 : (Prod.fst ∘ fun q : ℚ => (q, q)) = id := rfl
  have h2 : (Prod.snd ∘ fun q : ℚ => (q, q)) = id := rfl
  rw [h1, h2, List.map_id]
  apply congrArg List.sum
  apply List.map_congr_left
  intro q _
  simp only [Function.comp_apply]
  ring

theorem devSq_nonneg (l : List ℚ) : 0 ≤ devSq l := by
  unfold devSq
  apply List.sum_nonneg
  intro x hx
  simp only [List.mem_map] at hx
  obtain ⟨q, _, rfl⟩ := hx
  positivity

theorem pearson_self (xs : List Value) (h : colDevSq xs ≠ 0) :
    pearson xs xs = some 1 := by
  have hcf : (completePairs xs xs).map Prod.fst = xs.filterMap numOpt := by
    rw [completePairs_self]
    simp [List.map_map, Function.comp_def]
  have hcs : (completePairs xs xs).map Prod.snd = xs.filterMap numOpt := by
    rw [completePairs_self]
    simp [List.map_map, Function.comp_def]
  have hcd : crossDev (completePairs xs xs) = devSq (xs.filterMap numOpt) := by
    rw [completePairs_self, crossDev_dup]
  have hd : devSq (xs.filterMap numOpt) ≠ 0 := by
    simpa [colDevSq] using h
  unfold pearson
  rw [hcf, hcs, hcd]
  have hs : ¬(devSq (xs.filterMap numOpt) = 0 ∨ devSq (xs.filterMap numOpt) = 0) := by
    simp [hd]
  rw [if_neg hs]
  have hnn : (0 : ℝ) ≤ ((devSq (xs.filterMap numOpt) : ℚ) : ℝ) := by
    exact_mod_cast devSq_nonneg _
  have hne : ((devSq (xs.filterMap numOpt) : ℚ) : ℝ) ≠ 0 := by
    exact_mod_cast hd
  rw [Real.mul_self_sqrt hnn, div_self hne]

/-! Concrete datasets used by witnesses and counterexamples. -/

/-- Two numeric columns, both non-constant. -/
def sampleNumericDf : Dataset :=
  [("A", [Value.num 1, Value.num 2]), ("B", [Value.num 3, Value.num 5])]

/-- A single numeric column whose two values are equal (zero variance). -/
def constantColDf : Dataset :=
  [("A", [Value.num 1, Value.num 1])]

/-- A column with a missing value next to a clean one. -/
def nullColDf : Dataset :=
  [("A", [Value.num 1, Value.null]), ("B", [Value.num 2, Value.num 3])]

/-- A dataset containing a column whose name is the empty string. -/
def emptyNameDf : Dataset :=
  [("", [Value.num 1]), ("B", [Value.num 2])]

/-- The pie builder `generate_pie_chart` never raises UnboundLocalError: every branch either
returns or raises KeyError. -/
theorem generate_pie_chart_ne_unbound (df : Dataset) (x y : Option String) (hole : ℚ) :
    generate_pie_chart df x y hole ≠ Except.error PyError.unboundLocal := by
  unfold generate_pie_chart
  repeat' split
  all_goals simp

/-- C4: style application is idempotent — applying `apply_chart_customizations`
twice with the same title and palette name equals applying it once. -/
theorem apply_chart_customizations_idempotent (c : Option Fig) (t p : String) :
    apply_chart_customizations (apply_chart_customizations c t p) t p =
      apply_chart_customizations c t p := by
  cases c <;> rfl

/-- C5: `get_color_scale` maps each of the six recognized palette names to its
palette, and any unrecognized name resolves to the same palette as "Plotly3";
it is total, so resolution never fails. -/
theorem get_color_scale_resolution (s : String) (h : s ∉ paletteNames) :
    get_color_scale "Plotly3" = Palette.Plotly3 ∧
    get_color_scale "Plasma" = Palette.Plasma ∧
    get_color_scale "Viridis" = Palette.Viridis ∧
    get_color_scale "Cividis" = Palette.Cividis ∧
    get_color_scale "Inferno" = Palette.Inferno ∧
    get_color_scale "Magma" = Palette.Magma ∧
    get_color_scale s = get_color_scale "Plotly3" := by
  simp only [paletteNames, List.mem_cons, List.not_mem_nil, or_false, not_or] at h
  obtain ⟨h1, h2, h3, h4, h5, h6⟩ := h
  exact ⟨rfl, rfl, rfl, rfl, rfl, rfl, by simp [get_color_scale, h1, h2, h3, h4, h5, h6]⟩

theorem get_color_scale_resolution_witness :
    "not-a-real-name" ∉ paletteNames ∧
    (get_color_scale "Plotly3" = Palette.Plotly3 ∧
     get_color_scale "Plasma" = Palette.Plasma ∧
     get_color_scale "Viridis" = Palette.Viridis ∧
     get_color_scale "Cividis" = Palette.Cividis ∧
     get_color_scale "Inferno" = Palette.Inferno ∧
     get_color_scale "Magma" = Palette.Magma ∧
     get_color_scale "not-a-real-name" = get_color_scale "Plotly3") :=
  ⟨by decide, get_color_scale_resolution "not-a-real-name" (by decide)⟩

/-- C6: `apply_chart_customizations` is None-safe: on an absent chart it is a
no-op, and on a present chart it sets the title to the literal title string
and the colorway to the resolved palette, leaving the data untouched. -/
theorem apply_chart_customizations_none_safe (t p : String) :
    apply_chart_customizations none t p = none ∧
    ∀ f : Fig, ∃ f2 : Fig,
      apply_chart_customizations (some f) t p = some f2 ∧
      f2.layout.title = some t ∧
      f2.layout.colorway = some (get_color_scale p) ∧
      f2.data = f.data :=
  ⟨rfl, fun f => ⟨_, rfl, rfl, rfl, rfl⟩⟩

/-- C7: for valid column names the line and bar builders always return a
figure and emit nothing, and the bar figure carries the y column as its bar
text labels. -/
theorem line_bar_always_succeed (df : Dataset) (x y : String) (w : ℕ)
    (hx : (lookupCol df x).isSome = true) (hy : (lookupCol df y).isSome = true) :
    (∃ f, (generate_line_chart df (some x) (some y) w).1 = some f) ∧
    (generate_line_chart df (some x) (some y) w).2 = [] ∧
    (∃ f, (generate_bar_chart df (some x) (some y)).1 = some f ∧
      f.data = FigData.bar df (some x) (some y) (some y)) ∧
    (generate_bar_chart df (some x) (some y)).2 = [] :=
  ⟨⟨_, rfl⟩, rfl, ⟨_, rfl, rfl⟩, rfl⟩

theorem line_bar_always_succeed_witness :
    ((lookupCol sampleNumericDf "A").isSome = true ∧
     (lookupCol sampleNumericDf "B").isSome = true) ∧
    ((∃ f, (generate_line_chart sampleNumericDf (some "A") (some "B") 2).1 = some f) ∧
     (generate_line_chart sampleNumericDf (some "A") (some "B") 2).2 = [] ∧
     (∃ f, (generate_bar_chart sampleNumericDf (some "A") (some "B")).1 = some f ∧
       f.data = FigData.bar sampleNumericDf (some "A") (some "B") (some "B")) ∧
     (generate_bar_chart sampleNumericDf (some "A") (some "B")).2 = []) :=
  ⟨⟨by decide, by decide⟩,
    line_bar_always_succeed sampleNumericDf "A" "B" 2 (by decide) (by decide)⟩

/-- C8: for each of the four offered chart kinds the dispatcher takes exactly
the corresponding branch and forwards that builder's result; the fall-through
that would leave the result unassigned (UnboundLocalError) is unreachable. -/
theorem generate_chart_dispatch (df : Dataset) (kind : String) (x y : Option String)
    (w : ℕ) (hole : ℚ) (h : kind ∈ chartKinds) :
    generate_chart df kind x y w hole ≠ Except.error PyError.unboundLocal ∧
    (kind = "Line Chart" →
      generate_chart df kind x y w hole = Except.ok (generate_line_chart df x y w)) ∧
    (kind = "Bar Chart" →
      generate_chart df kind x y w hole = Except.ok (generate_bar_chart df x y)) ∧
    (kind = "Pie Chart" →
      generate_chart df kind x y w hole = generate_pie_chart df x y hole) ∧
    (kind = "Heatmap" →
      generate_chart df kind x y w hole = Except.ok (generate_heatmap df)) := by
  simp only [chartKinds, List.mem_cons, List.not_mem_nil, or_false] at h
  rcases h with rfl | rfl | rfl | rfl <;>
    exact ⟨by simp [generate_chart, generate_pie_chart_ne_unbound],
      by intro hk <;> simp_all [generate_chart],
      by intro hk <;> simp_all [generate_chart],
      by intro hk <;> simp_all [generate_chart],
      by intro hk <;> simp_all [generate_chart]⟩

theorem generate_chart_dispatch_witness :
    "Heatmap" ∈ chartKinds ∧
    (generate_chart sampleNumericDf "Heatmap" none none 2 (1/10) ≠
        Except.error PyError.unboundLocal ∧
     ("Heatmap" = "Line Chart" →
       generate_chart sampleNumericDf "Heatmap" none none 2 (1/10) =
         Except.ok (generate_line_chart sampleNumericDf none none 2)) ∧
     ("Heatmap" = "Bar Chart" →
       generate_chart sampleNumericDf "Heatmap" none none 2 (1/10) =
         Except.ok (generate_bar_chart sampleNumericDf none none)) ∧
     ("Heatmap" = "Pie Chart" →
       generate_chart sampleNumericDf "Heatmap" none none 2 (1/10) =
         generate_pie_chart sampleNumericDf none none (1/10)) ∧
     ("Heatmap" = "Heatmap" →
       generate_chart sampleNumericDf "Heatmap" none none 2 (1/10) =
         Except.ok (generate_heatmap sampleNumericDf))) :=
  ⟨by decide, generate_chart_dispatch sampleNumericDf "Heatmap" none none 2 (1/10) (by decide)⟩

/-- C1: for selected columns present in the dataset, a missing value anywhere
in either whole column makes the pie builder return `None` and emit a
diagnostic (the falsy-name corner also returns `None` with a diagnostic). -/
theorem generate_pie_chart_null_check (df : Dataset) (x y : String)
    (cx cy : List Value) (hole : ℚ)
    (hx : lookupCol df x = some cx) (hy : lookupCol df y = some cy)
    (hnull : hasNull cx = true ∨ hasNull cy = true) :
    ∃ msgs, generate_pie_chart df (some x) (some y) hole = Except.ok (none, msgs) ∧
      msgs ≠ [] := by
  by_cases hxe : x = ""
  · exact ⟨["Please select appropriate columns for the pie chart."],
      by simp [generate_pie_chart, truthy, hxe], by simp⟩
  by_cases hye : y = ""
  · exact ⟨["Please select appropriate columns for the pie chart."],
      by simp [generate_pie_chart, truthy, hye], by simp⟩
  by_cases hnx : hasNull cx = true
  · exact ⟨["The selected columns for the pie chart contain NaN values."],
      by simp [generate_pie_chart, truthy, hxe, hye, hx, hnx], by simp⟩
  · have hny : hasNull cy = true := by
      rcases hnull with h | h
      · exact absurd h hnx
      · exact h
    exact ⟨["The selected columns for the pie chart contain NaN values."],
      by simp [generate_pie_chart, truthy, hxe, hye, hx, hy, hnx, hny], by simp⟩

theorem generate_pie_chart_null_check_witness :
    (lookupCol nullColDf "A" = some [Value.num 1, Value.null] ∧
     lookupCol nullColDf "B" = some [Value.num 2, Value.num 3] ∧
     (hasNull [Value.num 1, Value.null] = true ∨
      hasNull [Value.num 2, Value.num 3] = true)) ∧
    (∃ msgs, generate_pie_chart nullColDf (some "A") (some "B") (1/10) =
        Except.ok (none, msgs) ∧ msgs ≠ []) :=
  ⟨⟨by decide, by decide, by decide⟩,
    generate_pie_chart_null_check nullColDf "A" "B"
      [Value.num 1, Value.null] [Value.num 2, Value.num 3] (1/10)
      (by decide) (by decide) (by decide)⟩

/-- C9: an unset x or y selection makes the pie builder return `None` with a
diagnostic, and every absence any builder returns carries a nonempty
message. -/
theorem generate_pie_chart_unset (df : Dataset) (x y : Option String) (hole : ℚ)
    (h : x = none ∨ y = none) :
    (∃ msgs, generate_pie_chart df x y hole = Except.ok (none, msgs) ∧ msgs ≠ []) ∧
    (∀ df2 x2 y2 hole2 msgs2,
      generate_pie_chart df2 x2 y2 hole2 = Except.ok (none, msgs2) → msgs2 ≠ []) ∧
    (∀ df2 msgs2, generate_heatmap df2 = (none, msgs2) → msgs2 ≠ []) ∧
    (∀ df2 x2 y2 w msgs2, generate_line_chart df2 x2 y2 w = (none, msgs2) → msgs2 ≠ []) ∧
    (∀ df2 x2 y2 msgs2, generate_bar_chart df2 x2 y2 = (none, msgs2) → msgs2 ≠ []) := by
  refine ⟨?_, ?_, ?_, ?_, ?_⟩
  · refine ⟨["Please select appropriate columns for the pie chart."], ?_, by simp⟩
    rcases h with rfl | rfl
    · simp [generate_pie_chart, truthy]
    · cases htx : truthy x <;> simp [generate_pie_chart, truthy, htx]
  · intro df2 x2 y2 hole2 msgs2 h2
    unfold generate_pie_chart at h2
    repeat' split at h2
    all_goals
      first
      | exact Except.noConfusion h2
      | (injection h2 with h3; injection h3 with h4 h5;
         first
         | exact Option.noConfusion h4
         | (subst h5; simp))
  · intro df2 msgs2 h2
    by_cases he : (numericCols df2).isEmpty
    · simp only [generate_heatmap, he, if_true] at h2
      injection h2 with h4 h5
      subst h5
      simp
    · simp [generate_heatmap, he] at h2
  · intro df2 x2 y2 w msgs2 h2
    simp [generate_line_chart] at h2
  · intro df2 x2 y2 msgs2 h2
    simp [generate_bar_chart] at h2

theorem generate_pie_chart_unset_witness :
    ((none : Option String) = none ∨ (some "B" : Option String) = none) ∧
    ((∃ msgs, generate_pie_chart sampleNumericDf none (some "B") (1/10) =
        Except.ok (none, msgs) ∧ msgs ≠ []) ∧
     (∀ df2 x2 y2 hole2 msgs2,
       generate_pie_chart df2 x2 y2 hole2 = Except.ok (none, msgs2) → msgs2 ≠ []) ∧
     (∀ df2 msgs2, generate_heatmap df2 = (none, msgs2) → msgs2 ≠ []) ∧
     (∀ df2 x2 y2 w msgs2, generate_line_chart df2 x2 y2 w = (none, msgs2) → msgs2 ≠ []) ∧
     (∀ df2 x2 y2 msgs2, generate_bar_chart df2 x2 y2 = (none, msgs2) → msgs2 ≠ [])) :=
  ⟨Or.inl rfl, generate_pie_chart_unset sampleNumericDf none (some "B") (1/10) (Or.inl rfl)⟩

/-- C10: a present column whose name is the empty string (falsy in Python)
is treated by the pie builder exactly like an unset selection: it returns
`None` with the "select appropriate columns" message, even though the column
exists and has no missing value. -/
theorem generate_pie_chart_falsy_name (df : Dataset) (y : Option String)
    (cx : List Value) (hole : ℚ)
    (hx : lookupCol df "" = some cx) (hn : hasNull cx = false) :
    generate_pie_chart df (some "") y hole =
      Except.ok (none, ["Please select appropriate columns for the pie chart."]) ∧
    generate_pie_chart df (some "") y hole = generate_pie_chart df none y hole := by
  constructor <;> simp [generate_pie_chart, truthy]

theorem generate_pie_chart_falsy_name_witness :
    (lookupCol emptyNameDf "" = some [Value.num 1] ∧
     hasNull [Value.num 1] = false) ∧
    (generate_pie_chart emptyNameDf (some "") (some "B") (1/10) =
       Except.ok (none, ["Please select appropriate columns for the pie chart."]) ∧
     generate_pie_chart emptyNameDf (some "") (some "B") (1/10) =
       generate_pie_chart emptyNameDf none (some "B") (1/10)) :=
  ⟨⟨by decide, by decide⟩,
    generate_pie_chart_falsy_name emptyNameDf (some "B") [Value.num 1] (1/10)
      (by decide) (by decide)⟩

/-- C3: the heatmap builder returns `None` exactly when the dataset has zero
numeric columns; in that case (and only then) it emits a diagnostic; and the
dispatcher's heatmap branch never looks at the axis selections or the other
kind-specific parameters. -/
theorem generate_heatmap_none_iff (df : Dataset) (x y x2 y2 : Option String)
    (w w2 : ℕ) (hole hole2 : ℚ) :
    ((generate_heatmap df).1 = none ↔ countNumeric df = 0) ∧
    ((generate_heatmap df).2 ≠ [] ↔ countNumeric df = 0) ∧
    generate_chart df "Heatmap" x y w hole = generate_chart df "Heatmap" x2 y2 w2 hole2 := by
  refine ⟨?_, ?_, by simp [generate_chart]⟩ <;>
    by_cases he : (numericCols df).isEmpty <;>
      simp_all [generate_heatmap, countNumeric, List.isEmpty_iff, List.length_eq_zero]

/-- C2 (amended): with at least one numeric column the heatmap builder
returns a figure whose correlation matrix has side length the number of
numeric columns and is symmetric; a diagonal entry is 1.0 whenever its
column's present values have nonzero squared deviation (a non-constant
column) — for a constant column pandas yields NaN there instead. -/
theorem generate_heatmap_matrix (df : Dataset) (h : 1 ≤ countNumeric df) :
    ∃ f, (generate_heatmap df).1 = some f ∧
      figMatrixDim f = countNumeric df ∧
      (∀ i j, figMatrixEntry f i j = figMatrixEntry f j i) ∧
      (∀ i c, (numericCols df)[i]? = some c → colDevSq c.2 ≠ 0 →
        figMatrixEntry f i i = some 1) := by
  have hne : (numericCols df).isEmpty = false := by
    cases hnc : numericCols df with
    | nil => simp [countNumeric, hnc] at h
    | cons a l => simp
  refine ⟨⟨FigData.imshow (numericCols df) true, ⟨none, none⟩⟩, ?_, rfl, ?_, ?_⟩
  · simp [generate_heatmap, hne]
  · intro i j
    show (match (numericCols df)[i]?, (numericCols df)[j]? with
      | some ci, some cj => pearson ci.2 cj.2
      | _, _ => none) = (match (numericCols df)[j]?, (numericCols df)[i]? with
      | some cj, some ci => pearson cj.2 ci.2
      | _, _ => none)
    cases (numericCols df)[i]? <;> cases (numericCols df)[j]? <;> simp
    exact pearson_comm _ _
  · intro i c hc hdev
    show (match (numericCols df)[i]?, (numericCols df)[i]? with
      | some ci, some cj => pearson ci.2 cj.2
      | _, _ => none) = some 1
    rw [hc]
    exact pearson_self c.2 hdev

theorem generate_heatmap_matrix_witness :
    1 ≤ countNumeric sampleNumericDf ∧
    (∃ f, (generate_heatmap sampleNumericDf).1 = some f ∧
      figMatrixDim f = countNumeric sampleNumericDf ∧
      (∀ i j, figMatrixEntry f i j = figMatrixEntry f j i) ∧
      (∀ i c, (numericCols sampleNumericDf)[i]? = some c → colDevSq c.2 ≠ 0 →
        figMatrixEntry f i i = some 1)) :=
  ⟨by decide, generate_heatmap_matrix sampleNumericDf (by decide)⟩

/-- C2 counterexample: on the dataset with the single numeric column
`[1, 1]` the heatmap builder does return a figure, but the diagonal entry of
its correlation matrix is NaN (`none`), not 1.0 — pandas cannot correlate a
zero-variance column with itself. -/
theorem generate_heatmap_diag_cex :
    1 ≤ countNumeric constantColDf ∧
    (generate_heatmap constantColDf).1.isSome = true ∧
    optMatrixEntry (generate_heatmap constantColDf).1 0 0 = none ∧
    optMatrixEntry (generate_heatmap constantColDf).1 0 0 ≠ some 1 := by
  have hcol : optMatrixEntry (generate_heatmap constantColDf).1 0 0 =
      pearson [Value.num 1, Value.num 1] [Value.num 1, Value.num 1] := rfl
  have hdev : devSq ((completePairs [Value.num 1, Value.num 1]
      [Value.num 1, Value.num 1]).map Prod.fst) = 0 := by
    have h1 : (completePairs [Value.num 1, Value.num 1]
        [Value.num 1, Value.num 1]).map Prod.fst = [1, 1] := rfl
    rw [h1]
    norm_num [devSq, mean]
  have hp : pearson [Value.num 1, Value.num 1] [Value.num 1, Value.num 1] = none := by
    unfold pearson
    exact if_pos (Or.inl hdev)
  refine ⟨by decide, by decide, ?_, ?_⟩
  · rw [hcol, hp]
  · rw [hcol, hp]
    simp
